import Mathlib

/-!
Verification development for the `toleo` version-tracking tool
(`src/toleo/__init__.py`).  The program loads a YAML collection of package
definitions, scrapes upstream pages for version strings, queries the AUR RPC
endpoint for repository versions, and prints comparison reports.

The embedding below translates each Python function of the source into a Lean
definition.  External effects (filesystem, HTTP requests, the regex engine)
are passed in as explicit parameters, and network calls are recorded as an
event list so that statements about I/O behaviour can be made.  Python
exceptions are modelled with `Except`, and `sys.exit` with a dedicated
constructor of the CLI result type.
-/

set_option autoImplicit false

namespace Toleo

/-! ## Python string primitives used by the source -/

/-- Python `str.rstrip(chars)`: removes all trailing characters of `s` that
are members of the character set `chars` (not a suffix removal). -/
def py_rstrip (s chars : String) : String :=
  String.mk ((s.data.reverse.dropWhile (fun c => chars.data.contains c)).reverse)

/-- Python `sub in s` on strings: contiguous substring containment. -/
def list_isInfix (sub : List Char) : List Char → Bool
  | [] => sub.isEmpty
  | c :: rest => sub.isPrefixOf (c :: rest) || list_isInfix sub rest

/-- Python `sub in s` on strings. -/
def py_in (sub s : String) : Bool :=
  list_isInfix sub.data s.data

/-- Python `str.zfill(w)` for the digit-led strings produced by the version
tokenizer: left-pad with `'0'` up to width `w`. -/
def py_zfill (s : String) (w : Nat) : String :=
  if s.length < w then String.mk (List.replicate (w - s.length) '0') ++ s else s

/-- Python `str.lower()` (ASCII case fold, the only case the tool exercises). -/
def py_lower (s : String) : String :=
  String.mk (s.data.map Char.toLower)

/-! ## Python ordering on strings and string tuples

Python compares strings lexicographically by code point and tuples
lexicographically element-wise (a proper prefix is smaller). -/

def chars_cmp : List Char → List Char → Ordering
  | [], [] => Ordering.eq
  | [], _ :: _ => Ordering.lt
  | _ :: _, [] => Ordering.gt
  | a :: as, b :: bs =>
    if a < b then Ordering.lt
    else if b < a then Ordering.gt
    else chars_cmp as bs

/-- Python `<` on strings. -/
def str_lt (a b : String) : Bool :=
  chars_cmp a.data b.data == Ordering.lt

/-- Python comparison of tuples of strings. -/
def parts_cmp : List String → List String → Ordering
  | [], [] => Ordering.eq
  | [], _ :: _ => Ordering.lt
  | _ :: _, [] => Ordering.gt
  | a :: as, b :: bs =>
    match chars_cmp a.data b.data with
    | Ordering.lt => Ordering.lt
    | Ordering.gt => Ordering.gt
    | Ordering.eq => parts_cmp as bs

/-! ## `pkg_resources.parse_version`

Modelled from the spec: the source delegates version ordering to the external
`pkg_resources` library (`setup.py` installs `setuptools`); the spec calls it
"a standard loose-version parser/comparator".  The definitions below embed the
classic setuptools loose-version algorithm: the string is lower-cased and
split into runs of digits, runs of letters, `.`, `-` and other characters;
`pre`/`preview`/`rc` become `c`, `dev` becomes `@`, `-` becomes `final-`;
numeric parts are zero-filled to width 8, non-numeric parts are tagged with a
leading `*`; a sentinel `*final` is appended; `*final-` markers before a
pre-release tag and trailing zero components are dropped; the resulting string
tuples are compared lexicographically. -/

/-- Character classes of the version tokenizer. -/
inductive CharKind
  | dig
  | low
  | dot
  | dash
  | oth
  deriving DecidableEq

def isDigitC (c : Char) : Bool := decide ('0' ≤ c) && decide (c ≤ '9')

def isLowerC (c : Char) : Bool := decide ('a' ≤ c) && decide (c ≤ 'z')

def charKind (c : Char) : CharKind :=
  if isDigitC c then CharKind.dig
  else if isLowerC c then CharKind.low
  else if c = '.' then CharKind.dot
  else if c = '-' then CharKind.dash
  else CharKind.oth

/-- Tokenizer step: prepend `c` to the token list of the remaining suffix,
merging into the first token when it has the same groupable kind. -/
def tok_step (c : Char) (acc : List (CharKind × List Char)) :
    List (CharKind × List Char) :=
  match acc with
  | [] => [(charKind c, [c])]
  | (k, run) :: rest =>
    if charKind c = k ∧ (k = CharKind.dig ∨ k = CharKind.low ∨ k = CharKind.oth) then
      (k, c :: run) :: rest
    else
      (charKind c, [c]) :: (k, run) :: rest

/-- Split a character list into the component tokens of the version grammar:
maximal runs of digits, maximal runs of lowercase letters, single `.`, single
`-`, and maximal runs of any other characters. -/
def tokenize (cs : List Char) : List String :=
  (cs.foldr tok_step []).map (fun kr => String.mk kr.2)

/-- The replacement table applied to each token. -/
def replace_part (p : String) : String :=
  if p = "pre" then "c"
  else if p = "preview" then "c"
  else if p = "-" then "final-"
  else if p = "rc" then "c"
  else if p = "dev" then "@"
  else p

/-- Yield the normalised parts of a version string: drop empty tokens and
dots, zero-fill numeric tokens, star-tag the rest, and append the `*final`
sentinel. -/
def version_parts (s : String) : List String :=
  ((tokenize (py_lower s).data).map replace_part).foldr
    (fun p acc =>
      if p = "" ∨ p = "." then acc
      else if isDigitC (p.data.headD ' ') then py_zfill p 8 :: acc
      else ("*" ++ p) :: acc)
    ["*final"]

/-- Python `part.startswith('*')`. -/
def starts_star (p : String) : Bool :=
  match p.data with
  | '*' :: _ => true
  | _ => false

/-- One step of the parse loop, on a reversed parts stack: before pushing a
star part, drop `*final-` markers when the part sorts before `*final`, then
drop trailing zero components. -/
def pv_step (stack : List String) (part : String) : List String :=
  if starts_star part then
    let s1 := if str_lt part "*final" then stack.dropWhile (fun x => x = "*final-") else stack
    let s2 := s1.dropWhile (fun x => x = "00000000")
    part :: s2
  else
    part :: stack

/-- The comparison key of a version string. -/
def parse_version (s : String) : List String :=
  ((version_parts s).foldl pv_step []).reverse

/-! ## `Toleo.ver_compare` (src/toleo/__init__.py lines 60-69) -/

/-- `ver_compare`: parse both strings and return `"eq"`, `"gt"` or `"lt"`;
the Python function falls off the end (returns `None`) when no branch is
taken. -/
def ver_compare (a b : String) : Option String :=
  let a_ver := parse_version a
  let b_ver := parse_version b
  if parts_cmp a_ver b_ver = Ordering.eq then some "eq"
  else if parts_cmp a_ver b_ver = Ordering.gt then some "gt"
  else if parts_cmp a_ver b_ver = Ordering.lt then some "lt"
  else none

/-! ## Data model

A collection (one YAML file) maps package names to package definitions.  The
YAML mapping is embedded as an association list so that iteration order is
explicit.  The optional `upstream` and `repo` sub-records mirror the schema
the source reads with `.get`. -/

/-- Minimal JSON values, as returned by the AUR RPC endpoint. -/
inductive Jval
  | jstr (s : String)
  | jdict (entries : List (String × Jval))

/-- Python `dict.get(key)`: first binding, `None` when absent. -/
def dict_get (d : List (String × Jval)) (key : String) : Option Jval :=
  (d.find? (fun kv => kv.1 = key)).map (fun kv => kv.2)

/-- The `upstream` sub-record of a package definition: `url`, `parser`
(informational, unused), `pattern`, `use_headers` (truthiness of the YAML
value; absent means false). -/
structure UpstreamCfg where
  url : String
  parser_name : Option String
  pattern : String
  use_headers : Bool
  deriving DecidableEq

/-- The `repo` sub-record: `url` and `parser`, both informational. -/
structure RepoCfg where
  url : Option String
  parser_name : Option String
  deriving DecidableEq

/-- A package definition: two optional sub-records. -/
structure Pkg where
  upstream : Option UpstreamCfg
  repo : Option RepoCfg
  deriving DecidableEq

/-- A collection: package name to definition, in YAML mapping order. -/
abbrev Cfg := List (String × Pkg)

/-- Python `dict.get` on the collection. -/
def cfg_get (cfg : Cfg) (name : String) : Option Pkg :=
  (cfg.find? (fun kv => kv.1 = name)).map (fun kv => kv.2)

/-! ## Effects

`requests` and `re` are external libraries: HTTP is a parameter (`Net`), and
the regex engine is a parameter `findall : pattern → text → matches`,
matching `re.findall` (non-overlapping matches in order of appearance, the
capture group when the pattern has one).  Every network call is recorded as a
`NetEvent` so the theorems can speak about I/O.  Python exceptions are
`Except PyErr`. -/

inductive NetEvent
  | get (url : String)
  | head (url : String)
  | rpc (endpoint method arg : String)
  deriving DecidableEq

/-- HTTP environment: body text for GET, headers for HEAD, parsed JSON
response for the RPC GET. -/
structure Net where
  get_text : String → String
  head_headers : String → List (String × String)
  rpc : String → String → String → List (String × Jval)

inductive PyErr
  | attributeError (msg : String)
  deriving DecidableEq

/-- `json.dumps(dict(headers))` for a flat string dictionary. -/
def json_dumps (d : List (String × String)) : String :=
  "\x7b" ++ String.intercalate ", "
    (d.map (fun kv => "\"" ++ kv.1 ++ "\": \"" ++ kv.2 ++ "\"")) ++ "\x7d"

/-! ## `Toleo.scrape` (lines 51-58) and `Toleo.aur_api` (lines 71-76) -/

/-- `scrape`: HEAD and serialize the headers when `use_headers`, else GET the
body text.  Returns the events performed with the result. -/
def scrape (net : Net) (url : String) (use_headers : Bool) :
    List NetEvent × String :=
  if use_headers then
    ([NetEvent.head url], json_dumps (net.head_headers url))
  else
    ([NetEvent.get url], net.get_text url)

/-- The fixed AUR RPC endpoint. -/
def aur_rpc_url : String := "https://aur.archlinux.org/rpc.php"

/-- `aur_api`: one GET of the RPC endpoint with payload
`type=method, arg=data`, JSON-decoded. -/
def aur_api (net : Net) (method data_ : String) :
    List NetEvent × List (String × Jval) :=
  ([NetEvent.rpc aur_rpc_url method data_], net.rpc aur_rpc_url method data_)

/-! ## `Toleo.upstream_version` (lines 78-98) -/

/-- The body of the selection loop of `upstream_version`: replace the running
`version` by `m ++ "-0"` when the raw match `m` compares greater than the
running (already suffixed) value. -/
def fold_step (version m : String) : String :=
  if ver_compare m version = some "gt" then m ++ "-0" else version

/-- The selection loop of `upstream_version`, starting from the empty
string. -/
def upstream_fold (ms : List String) : String :=
  ms.foldl fold_step ""

/-- `upstream_version`: read the `upstream` sub-record (attribute error on a
missing package or missing sub-record, before any I/O), scrape, apply the
regex, and run the selection loop.  Debug echoes are diagnostic output only
and are not modelled. -/
def upstream_version (net : Net) (findall : String → String → List String)
    (cfg : Cfg) (pkg_name : String) : List NetEvent × Except PyErr String :=
  match cfg_get cfg pkg_name with
  | none => ([], Except.error (PyErr.attributeError "NoneType object has no attribute get"))
  | some p =>
    match p.upstream with
    | none => ([], Except.error (PyErr.attributeError "NoneType object has no attribute get"))
    | some u =>
      let er := scrape net u.url u.use_headers
      let ms := findall u.pattern er.2
      (er.1, Except.ok (upstream_fold ms))

/-! ## `Toleo.repo_version` (lines 100-109) -/

/-- `repo_version`: read the `repo` sub-record (attribute error when absent),
query the AUR RPC interface with `type=info, arg=pkg_name`, take
`data.get('results')` (attribute error on `.get('Version')` when it is `None`
or not a dictionary) and return `result.get('Version')`. -/
def repo_version (net : Net) (cfg : Cfg) (pkg_name : String) :
    List NetEvent × Except PyErr (Option Jval) :=
  match cfg_get cfg pkg_name with
  | none => ([], Except.error (PyErr.attributeError "NoneType object has no attribute get"))
  | some p =>
    match p.repo with
    | none => ([], Except.error (PyErr.attributeError "NoneType object has no attribute get"))
    | some _ =>
      let ed := aur_api net "info" pkg_name
      match dict_get ed.2 "results" with
      | none => (ed.1, Except.error (PyErr.attributeError "NoneType object has no attribute get"))
      | some (Jval.jstr _) => (ed.1, Except.error (PyErr.attributeError "str object has no attribute get"))
      | some (Jval.jdict result) => (ed.1, Except.ok (dict_get result "Version"))

/-! ## `Toleo.find_config` (lines 26-31) and `Toleo.read_config` (lines 33-49)

`click.get_app_dir` and the filesystem are external: the application config
directory is a parameter, and the filesystem is a partial map from paths to
parsed YAML collections. -/

/-- `pathlib.PurePath.with_suffix('.yaml')` on the final path component:
replace the extension after the last non-leading dot, else append. -/
def with_suffix_yaml (name : String) : String :=
  let cs := name.data
  let rev := cs.reverse
  let afterDot := rev.takeWhile (fun c => c ≠ '.')
  if afterDot.length < rev.length ∧ afterDot.length + 1 < rev.length then
    String.mk ((rev.drop (afterDot.length + 1)).reverse) ++ ".yaml"
  else
    name ++ ".yaml"

/-- `find_config`: the override directory if supplied, else the application
config directory, joined with `<collection>` and given the `.yaml` suffix. -/
def find_config (path_override : Option String) (app_dir : String)
    (collection : String) : String :=
  (path_override.getD app_dir) ++ "/" ++ with_suffix_yaml collection

/-- `click.style(msg, fg='red', bold=True)`: ANSI red and bold around the
message. -/
def click_style_red_bold (s : String) : String :=
  "\x1b[31m\x1b[1m" ++ s ++ "\x1b[0m"

/-- `read_config`: load the YAML file at the path, or `sys.exit` (modelled as
`Except.error`) with the styled `cannot read <path>` message; then, when a
limit was supplied, keep only the packages whose name contains it, in source
order. -/
def read_config (fs : String → Option Cfg) (cfg_path : String)
    (limit : Option String) : Except String Cfg :=
  match fs cfg_path with
  | none => Except.error (click_style_red_bold ("cannot read " ++ cfg_path))
  | some full_cfg =>
    match limit with
    | none => Except.ok full_cfg
    | some l => Except.ok (full_cfg.filter (fun kv => py_in l kv.1))

/-! ## Reporting actions (lines 111-138)

Each action echoes a divider line, then for each package a `package:` line,
the version line(s) with `rstrip('-0')` applied, and a divider.  Output is
the list of echoed lines; an uncaught exception aborts the action (partial
output before an abort is not modelled). -/

/-- The fixed-width divider, `'-' * 50`. -/
def line : String := String.mk (List.replicate 50 '-')

/-- `pkg_version.rstrip('-0')` where `pkg_version` came from JSON: attribute
error unless it is a string. -/
def rstrip_jval (v : Option Jval) : Except PyErr String :=
  match v with
  | some (Jval.jstr s) => Except.ok (py_rstrip s "-0")
  | _ => Except.error (PyErr.attributeError "object has no attribute rstrip")

/-- The loop of `action_upstream` over the remaining package names. -/
def action_upstream_rows (net : Net) (findall : String → String → List String)
    (cfg : Cfg) : List (String × Pkg) → Except PyErr (List String)
  | [] => Except.ok []
  | (pkg_name, _) :: rest =>
    match (upstream_version net findall cfg pkg_name).2 with
    | Except.error e => Except.error e
    | Except.ok src_version =>
      match action_upstream_rows net findall cfg rest with
      | Except.error e => Except.error e
      | Except.ok tail =>
        Except.ok (("package:\t" ++ pkg_name)
          :: ("upstream:\t" ++ py_rstrip src_version "-0") :: line :: tail)

/-- `action_upstream`: divider, then the per-package rows. -/
def action_upstream (net : Net) (findall : String → String → List String)
    (cfg : Cfg) : Except PyErr (List String) :=
  match action_upstream_rows net findall cfg cfg with
  | Except.error e => Except.error e
  | Except.ok rows => Except.ok (line :: rows)

/-- The loop of `action_repo`. -/
def action_repo_rows (net : Net) (cfg : Cfg) :
    List (String × Pkg) → Except PyErr (List String)
  | [] => Except.ok []
  | (pkg_name, _) :: rest =>
    match (repo_version net cfg pkg_name).2 with
    | Except.error e => Except.error e
    | Except.ok pkg_version =>
      match rstrip_jval pkg_version with
      | Except.error e => Except.error e
      | Except.ok stripped =>
        match action_repo_rows net cfg rest with
        | Except.error e => Except.error e
        | Except.ok tail =>
          Except.ok (("package:\t" ++ pkg_name)
            :: ("repo:\t\t" ++ stripped) :: line :: tail)

/-- `action_repo`: divider, then the per-package rows. -/
def action_repo (net : Net) (cfg : Cfg) : Except PyErr (List String) :=
  match action_repo_rows net cfg cfg with
  | Except.error e => Except.error e
  | Except.ok rows => Except.ok (line :: rows)

/-- The loop of `action_compare`: upstream line then repo line per package. -/
def action_compare_rows (net : Net) (findall : String → String → List String)
    (cfg : Cfg) : List (String × Pkg) → Except PyErr (List String)
  | [] => Except.ok []
  | (pkg_name, _) :: rest =>
    match (upstream_version net findall cfg pkg_name).2 with
    | Except.error e => Except.error e
    | Except.ok src_version =>
      match (repo_version net cfg pkg_name).2 with
      | Except.error e => Except.error e
      | Except.ok pkg_version =>
        match rstrip_jval pkg_version with
        | Except.error e => Except.error e
        | Except.ok stripped =>
          match action_compare_rows net findall cfg rest with
          | Except.error e => Except.error e
          | Except.ok tail =>
            Except.ok (("package:\t" ++ pkg_name)
              :: ("upstream:\t" ++ py_rstrip src_version "-0")
              :: ("repo:\t\t" ++ stripped) :: line :: tail)

/-- `action_compare`: divider, then the per-package rows. -/
def action_compare (net : Net) (findall : String → String → List String)
    (cfg : Cfg) : Except PyErr (List String) :=
  match action_compare_rows net findall cfg cfg with
  | Except.error e => Except.error e
  | Except.ok rows => Except.ok (line :: rows)

/-! ## `cli` (lines 141-155) -/

/-- Outcome of one CLI invocation: `sys.exit` with a message, an uncaught
exception, or a normally finished run with its printed lines. -/
inductive CliResult
  | exited (msg : String)
  | errored (e : PyErr)
  | finished (out : List String)
  deriving DecidableEq

/-- `cli`: build the `Toleo` application (resolve the config path and read
the config, which may exit), then dispatch on the action string; an action
other than `upstream`, `repo` and `compare` falls through the `if`/`elif`
chain and the command returns normally having printed nothing. -/
def cli (fs : String → Option Cfg) (net : Net)
    (findall : String → String → List String) (app_dir : String)
    (action : String) (collection : String) (path_override : Option String)
    (limit : Option String) : CliResult :=
  let cfg_path := find_config path_override app_dir collection
  match read_config fs cfg_path limit with
  | Except.error msg => CliResult.exited msg
  | Except.ok cfg =>
    if action = "upstream" then
      match action_upstream net findall cfg with
      | Except.ok out => CliResult.finished out
      | Except.error e => CliResult.errored e
    else if action = "repo" then
      match action_repo net cfg with
      | Except.ok out => CliResult.finished out
      | Except.error e => CliResult.errored e
    else if action = "compare" then
      match action_compare net findall cfg with
      | Except.ok out => CliResult.finished out
      | Except.error e => CliResult.errored e
    else
      CliResult.finished []

/-! ## Concrete regex engines

`re.findall` is external; for concrete runs the engine parameter is
instantiated with executable matchers implementing the configured patterns:
`v(\d+\.\d+\.\d+)` (the spec's end-to-end scenario) and a character-class
pattern `[0-9a-z.\-]+` picking up whole version words. -/

/-- Match `\d+\.\d+\.\d+` at the head of the character list, returning the
captured characters and the remaining input. -/
def match_ddd (cs : List Char) : Option (List Char × List Char) :=
  let d1 := cs.takeWhile isDigitC
  let r1 := cs.dropWhile isDigitC
  if d1.isEmpty then none else
  match r1 with
  | '.' :: r2 =>
    let d2 := r2.takeWhile isDigitC
    let r3 := r2.dropWhile isDigitC
    if d2.isEmpty then none else
    match r3 with
    | '.' :: r4 =>
      let d3 := r4.takeWhile isDigitC
      let r5 := r4.dropWhile isDigitC
      if d3.isEmpty then none else
      some (d1 ++ '.' :: d2 ++ '.' :: d3, r5)
    | _ => none
  | _ => none

/-- Scanner for `re.findall(r'v(\d+\.\d+\.\d+)', text)`: non-overlapping
matches left to right, resuming after each match; the fuel starts at the
input length, which one unit of progress per step never exhausts. -/
def findall_vddd_aux : Nat → List Char → List String
  | 0, _ => []
  | _ + 1, [] => []
  | fuel + 1, c :: rest =>
    if c = 'v' then
      match match_ddd rest with
      | some (cap, rem) => String.mk cap :: findall_vddd_aux fuel rem
      | none => findall_vddd_aux fuel rest
    else
      findall_vddd_aux fuel rest

/-- `re.findall(r'v(\d+\.\d+\.\d+)', text)`. -/
def findall_vddd (t : String) : List String :=
  findall_vddd_aux t.data.length t.data

/-- Characters of the class `[0-9a-z.\-]`. -/
def isVerC (c : Char) : Bool :=
  isDigitC c || isLowerC c || c = '.' || c = '-'

/-- `re.findall(r'[0-9a-z.\-]+', text)`: maximal runs of version
characters. -/
def findall_loose (t : String) : List String :=
  ((t.data.foldr
      (fun c acc =>
        match acc with
        | [] => [(isVerC c, [c])]
        | (b, run) :: rest =>
          if isVerC c then
            if b then (true, c :: run) :: rest
            else (true, [c]) :: (b, run) :: rest
          else
            (false, [c]) :: (b, run) :: rest)
      []).filter (fun g => g.1)).map (fun g => String.mk g.2)

/-- Engine for configurations whose pattern is `v(\d+\.\d+\.\d+)`. -/
def vddd_engine : String → String → List String :=
  fun _ t => findall_vddd t

/-- Engine for configurations whose pattern is `[0-9a-z.\-]+`. -/
def loose_engine : String → String → List String :=
  fun _ t => findall_loose t

/-! ## Concrete fixtures for the spec's scenarios -/

/-- The `widget` package's upstream record in the end-to-end scenario. -/
def widget_upstream : UpstreamCfg :=
  { url := "http://example.test/widget"
    parser_name := none
    pattern := "v(\\d+\\.\\d+\\.\\d+)"
    use_headers := false }

/-- The `widget` package of the end-to-end scenario. -/
def widget_pkg : Pkg :=
  { upstream := some widget_upstream
    repo := some { url := none, parser_name := none } }

/-- The scenario collection: just `widget`. -/
def scenario_cfg : Cfg := [("widget", widget_pkg)]

/-- The scenario environment: the upstream page reads
`download v1.4.0 now`, and the AUR reports `Version = "1.4.0-1"`. -/
def scenario_net : Net :=
  { get_text := fun _ => "download v1.4.0 now"
    head_headers := fun _ => []
    rpc := fun _ _ _ => [("results", Jval.jdict [("Version", Jval.jstr "1.4.0-1")])] }

/-! ## Further fixtures used by individual claims -/

/-- A package definition with no sub-records. -/
def empty_pkg : Pkg := { upstream := none, repo := none }

/-- A collection whose single package has no upstream sub-record. -/
def noup_cfg : Cfg := [("nope", empty_pkg)]

/-- A package scraping with the `v(\d+\.\d+\.\d+)` pattern. -/
def nomatch_pkg : Pkg :=
  { upstream := some
      { url := "http://example.test/empty"
        parser_name := none
        pattern := "v(\\d+\\.\\d+\\.\\d+)"
        use_headers := false }
    repo := none }

/-- Collection for the empty-match scenario. -/
def nomatch_cfg : Cfg := [("empty", nomatch_pkg)]

/-- Environment whose page contains no `vN.N.N` occurrence. -/
def nomatch_net : Net :=
  { get_text := fun _ => "no version markers here"
    head_headers := fun _ => []
    rpc := fun _ _ _ => [] }

/-- A package scraping with the `[0-9a-z.\-]+` pattern. -/
def listing_pkg : Pkg :=
  { upstream := some
      { url := "http://example.test/listing"
        parser_name := none
        pattern := "[0-9a-z.\\-]+"
        use_headers := false }
    repo := none }

/-- Collection for the maximum-selection scenarios. -/
def listing_cfg : Cfg := [("listing", listing_pkg)]

/-- Environment serving the two versions `1.2.0` and `1.2.0-0`. -/
def two_versions_net : Net :=
  { get_text := fun _ => "1.2.0 1.2.0-0"
    head_headers := fun _ => []
    rpc := fun _ _ _ => [] }

/-- Environment serving the spec example page with `1.2.0`, `1.3.0-rc1` and
`1.2.5`. -/
def rc_example_net : Net :=
  { get_text := fun _ => "1.2.0 1.3.0-rc1 1.2.5"
    head_headers := fun _ => []
    rpc := fun _ _ _ => [] }

/-- The `--limit foo` scenario collection with `foobar`, `foo-lib` and
`baz`. -/
def limit_demo_cfg : Cfg :=
  [("foobar", empty_pkg), ("foo-lib", empty_pkg), ("baz", empty_pkg)]

/-! ## Helper lemmas -/

theorem chars_cmp_refl (a : List Char) : chars_cmp a a = Ordering.eq := by
  induction a with
  | nil => rfl
  | cons c cs ih => simp [chars_cmp, lt_irrefl, ih]

theorem chars_cmp_swap (a b : List Char) : chars_cmp b a = (chars_cmp a b).swap := by
  induction a generalizing b with
  | nil => cases b <;> rfl
  | cons x xs ih =>
    cases b with
    | nil => rfl
    | cons y ys =>
      by_cases hxy : x < y
      · simp [chars_cmp, hxy, lt_asymm hxy, Ordering.swap]
      · by_cases hyx : y < x
        · simp [chars_cmp, hxy, hyx, Ordering.swap]
        · simp [chars_cmp, hxy, hyx, Ordering.swap, ih ys]

theorem parts_cmp_refl (a : List String) : parts_cmp a a = Ordering.eq := by
  induction a with
  | nil => rfl
  | cons s ss ih => simp [parts_cmp, chars_cmp_refl, ih]

theorem parts_cmp_swap (a b : List String) : parts_cmp b a = (parts_cmp a b).swap := by
  induction a generalizing b with
  | nil => cases b <;> rfl
  | cons x xs ih =>
    cases b with
    | nil => rfl
    | cons y ys =>
      simp only [parts_cmp, chars_cmp_swap x.data y.data]
      cases h : chars_cmp x.data y.data <;> simp [Ordering.swap, ih ys]

theorem isPrefixOf_append_self (l t : List Char) : l.isPrefixOf (l ++ t) = true := by
  induction l with
  | nil => simp [List.isPrefixOf]
  | cons c cs ih => simp [List.cons_append, List.isPrefixOf, ih]

theorem list_isInfix_append (pre sub post : List Char) :
    list_isInfix sub (pre ++ sub ++ post) = true := by
  induction pre with
  | nil =>
    rw [List.nil_append]
    cases hsp : sub ++ post with
    | nil =>
      rcases List.append_eq_nil.mp hsp with ⟨h1, _⟩
      simp [list_isInfix, h1]
    | cons c rest =>
      simp only [list_isInfix]
      rw [← hsp, isPrefixOf_append_self, Bool.true_or]
  | cons p ps ih =>
    simp only [List.cons_append, list_isInfix, List.append_eq, ih, Bool.or_true]

theorem string_data_append (a b : String) : (a ++ b).data = a.data ++ b.data := rfl

theorem fold_step_shape (ms : List String) (v : String) :
    ms.foldl fold_step v = v ∨ ∃ m ∈ ms, ms.foldl fold_step v = m ++ "-0" := by
  induction ms generalizing v with
  | nil => exact Or.inl rfl
  | cons x xs ih =>
    rw [List.foldl_cons]
    by_cases hx : ver_compare x v = some "gt"
    · have hs : fold_step v x = x ++ "-0" := by simp [fold_step, hx]
      rw [hs]
      rcases ih (x ++ "-0") with h | ⟨m, hm, he⟩
      · exact Or.inr ⟨x, List.mem_cons_self x xs, h⟩
      · exact Or.inr ⟨m, List.mem_cons_of_mem x hm, he⟩
    · have hs : fold_step v x = v := by simp [fold_step, hx]
      rw [hs]
      rcases ih v with h | ⟨m, hm, he⟩
      · exact Or.inl h
      · exact Or.inr ⟨m, List.mem_cons_of_mem x hm, he⟩

/-! ## Claim theorems -/

/-- C5: for all version strings `a`, `b`, the comparator is antisymmetric
(`compare a b = lt` iff `compare b a = gt`, and `compare a b = eq` iff
`compare b a = eq`) and reflexive (`compare a a = eq`). -/
theorem ver_compare_antisymm_refl (a b : String) :
    (ver_compare a b = some "lt" ↔ ver_compare b a = some "gt")
    ∧ (ver_compare a b = some "eq" ↔ ver_compare b a = some "eq")
    ∧ ver_compare a a = some "eq" := by
  refine ⟨?_, ?_, ?_⟩
  · simp only [ver_compare]
    rw [parts_cmp_swap (parse_version a) (parse_version b)]
    cases h : parts_cmp (parse_version a) (parse_version b) <;>
      simp [Ordering.swap]
  · simp only [ver_compare]
    rw [parts_cmp_swap (parse_version a) (parse_version b)]
    cases h : parts_cmp (parse_version a) (parse_version b) <;>
      simp [Ordering.swap]
  · simp [ver_compare, parts_cmp_refl]

/-- C9: whenever the upstream resolver succeeds, the returned value is either
the empty string or some regex match from the fetched content with the
literal suffix `-0` appended. -/
theorem upstream_result_shape (net : Net) (findall : String → String → List String)
    (cfg : Cfg) (pkg_name : String) (p : Pkg) (u : UpstreamCfg) (s : String)
    (h1 : cfg_get cfg pkg_name = some p) (h2 : p.upstream = some u)
    (h3 : (upstream_version net findall cfg pkg_name).2 = Except.ok s) :
    s = "" ∨ ∃ m ∈ findall u.pattern (scrape net u.url u.use_headers).2,
      s = m ++ "-0" := by
  simp only [upstream_version, h1, h2, Except.ok.injEq] at h3
  rw [← h3]
  exact fold_step_shape (findall u.pattern (scrape net u.url u.use_headers).2) ""

/-- Witness for C9 at the end-to-end scenario. -/
theorem upstream_result_shape_witness :
    ("1.4.0-0" : String) = ""
    ∨ ∃ m ∈ vddd_engine widget_upstream.pattern
        (scrape scenario_net widget_upstream.url widget_upstream.use_headers).2,
      ("1.4.0-0" : String) = m ++ "-0" :=
  upstream_result_shape scenario_net vddd_engine scenario_cfg "widget"
    widget_pkg widget_upstream "1.4.0-0" rfl rfl rfl

/-- C3 counterexample: for a concrete package with no `upstream` sub-record
the resolver raises an attribute error; it does not report a distinct
"no upstream configured" outcome. -/
theorem upstream_no_record_fails :
    upstream_version nomatch_net vddd_engine noup_cfg "nope"
      = ([], Except.error (PyErr.attributeError "NoneType object has no attribute get")) :=
  rfl

/-- C3 amended: for every package whose definition contains no upstream
sub-record, resolving the upstream version performs no network I/O and
raises an attribute error (reading `url` off the absent record); no distinct
"no upstream configured" outcome is reported. -/
theorem upstream_no_record_no_io (net : Net)
    (findall : String → String → List String) (cfg : Cfg) (pkg_name : String)
    (p : Pkg) (h1 : cfg_get cfg pkg_name = some p) (h2 : p.upstream = none) :
    upstream_version net findall cfg pkg_name
      = ([], Except.error (PyErr.attributeError "NoneType object has no attribute get")) := by
  simp [upstream_version, h1, h2]

/-- Witness for the amended C3. -/
theorem upstream_no_record_no_io_witness :
    upstream_version nomatch_net loose_engine noup_cfg "nope"
      = ([], Except.error (PyErr.attributeError "NoneType object has no attribute get")) :=
  upstream_no_record_no_io nomatch_net loose_engine noup_cfg "nope" empty_pkg rfl rfl

/-- C2 counterexample: for a concrete package whose pattern matches nothing in
the fetched content, the `upstream` report succeeds, printing an empty
upstream value; `rstrip` on the empty string does not fail. -/
theorem empty_match_display_succeeds :
    action_upstream nomatch_net vddd_engine nomatch_cfg
      = Except.ok [line, "package:\tempty", "upstream:\t", line]
    ∧ py_rstrip "" "-0" = "" := by
  exact ⟨rfl, rfl⟩

/-- C2 amended: for every package whose configured regular expression matches
zero substrings of the fetched content, the upstream resolver returns the
empty string, and the subsequent display trim succeeds on the empty value, so
the report prints an empty upstream version rather than faulting. -/
theorem empty_match_returns_empty (net : Net)
    (findall : String → String → List String) (name : String) (p : Pkg)
    (u : UpstreamCfg) (h2 : p.upstream = some u)
    (h3 : findall u.pattern (scrape net u.url u.use_headers).2 = []) :
    (upstream_version net findall [(name, p)] name).2 = Except.ok ""
    ∧ py_rstrip "" "-0" = ""
    ∧ action_upstream net findall [(name, p)]
      = Except.ok [line, "package:\t" ++ name, "upstream:\t" ++ py_rstrip "" "-0", line] := by
  have hg : cfg_get [(name, p)] name = some p := by simp [cfg_get]
  refine ⟨?_, rfl, ?_⟩
  · simp [upstream_version, hg, h2, h3, upstream_fold]
  · simp [action_upstream, action_upstream_rows, upstream_version, hg, h2, h3,
      upstream_fold]

/-- Witness for the amended C2. -/
theorem empty_match_returns_empty_witness :
    (upstream_version nomatch_net vddd_engine [("empty", nomatch_pkg)] "empty").2
      = Except.ok ""
    ∧ py_rstrip "" "-0" = ""
    ∧ action_upstream nomatch_net vddd_engine [("empty", nomatch_pkg)]
      = Except.ok [line, "package:\t" ++ "empty", "upstream:\t" ++ py_rstrip "" "-0", line] :=
  empty_match_returns_empty nomatch_net vddd_engine "empty" nomatch_pkg
    { url := "http://example.test/empty"
      parser_name := none
      pattern := "v(\\d+\\.\\d+\\.\\d+)"
      use_headers := false } rfl rfl

/-- C4 counterexample: for fetched content yielding the matches `1.2.0` and
`1.2.0-0`, the maximum match under the comparator is `1.2.0-0`, so the claim
predicts the return value `1.2.0-0` ++ `-0`; the resolver instead returns
`1.2.0-0`, because each match is compared against the already suffixed
running best. -/
theorem upstream_not_argmax :
    (upstream_version two_versions_net loose_engine listing_cfg "listing").2
      = Except.ok "1.2.0-0"
    ∧ loose_engine "[0-9a-z.\\-]+" "1.2.0 1.2.0-0" = ["1.2.0", "1.2.0-0"]
    ∧ ver_compare "1.2.0-0" "1.2.0" = some "gt"
    ∧ ("1.2.0-0" : String) ≠ "1.2.0-0" ++ "-0" := by
  refine ⟨rfl, rfl, rfl, ?_⟩
  decide

/-- C4 amended: the upstream resolver folds over the regex matches in order
of appearance, starting from an empty baseline; each raw match is compared
against the running best, which already carries the `-0` suffix, and when the
match compares strictly greater the best becomes the match with `-0`
appended (so the result is the suffixed last match that beat the running
best, not necessarily the suffixed maximum match).  Ties keep the
first-seen value; for matches `1.2.0`, `1.3.0-rc1`, `1.2.5` the resolver
returns `1.3.0-rc1-0`. -/
theorem upstream_selection_example :
    (upstream_version rc_example_net loose_engine listing_cfg "listing").2
      = Except.ok "1.3.0-rc1-0"
    ∧ loose_engine "[0-9a-z.\\-]+" "1.2.0 1.3.0-rc1 1.2.5"
      = ["1.2.0", "1.3.0-rc1", "1.2.5"]
    ∧ upstream_fold ["1.2.0", "1.3.0-rc1", "1.2.5"] = "1.3.0-rc1-0"
    ∧ upstream_fold ["1.2.0", "1.2.0"] = "1.2.0-0"
    ∧ ver_compare "1.2.0" "1.2.0-0" = some "lt" := by
  exact ⟨rfl, rfl, rfl, rfl, rfl⟩

/-- C1 counterexample: in the end-to-end scenario (page text
`download v1.4.0 now`, pattern `v(\d+\.\d+\.\d+)`, repo version `1.4.0-1`)
the `compare` action prints `upstream: 1.4.` and `repo: 1.4.0-1`, not
`upstream: 1.4.0` and `repo: 1.4.0`: `rstrip('-0')` removes all trailing
`-` and `0` characters, not the `-0` suffix. -/
theorem compare_scenario_actual :
    action_compare scenario_net vddd_engine scenario_cfg
      = Except.ok [line, "package:\twidget", "upstream:\t1.4.", "repo:\t\t1.4.0-1", line]
    ∧ ("upstream:\t1.4." : String) ≠ "upstream:\t1.4.0"
    ∧ ("repo:\t\t1.4.0-1" : String) ≠ "repo:\t\t1.4.0" := by
  refine ⟨rfl, ?_, ?_⟩ <;> decide

/-- C1 amended: in every report mode, a package's displayed version is its
resolved version with all trailing `-` and `0` characters removed (Python
`rstrip('-0')` strips a character set, not the exact suffix); in the
scenario the `upstream`, `repo` and `compare` actions print `upstream: 1.4.`
and `repo: 1.4.0-1` for `widget`, framed by divider lines. -/
theorem report_display_rstrip :
    py_rstrip "1.4.0-0" "-0" = "1.4."
    ∧ py_rstrip "1.4.0-1" "-0" = "1.4.0-1"
    ∧ action_upstream scenario_net vddd_engine scenario_cfg
      = Except.ok [line, "package:\twidget", "upstream:\t1.4.", line]
    ∧ action_repo scenario_net scenario_cfg
      = Except.ok [line, "package:\twidget", "repo:\t\t1.4.0-1", line]
    ∧ action_compare scenario_net vddd_engine scenario_cfg
      = Except.ok [line, "package:\twidget", "upstream:\t1.4.", "repo:\t\t1.4.0-1", line] := by
  exact ⟨rfl, rfl, rfl, rfl, rfl⟩

/-- Containment of the path in the styled `cannot read` message. -/
theorem py_in_click_msg (path : String) :
    py_in path (click_style_red_bold ("cannot read " ++ path)) = true := by
  have h := list_isInfix_append ("\x1b[31m\x1b[1m".data ++ "cannot read ".data)
    path.data "\x1b[0m".data
  simp only [py_in, click_style_red_bold]
  show list_isInfix path.data
    ("\x1b[31m\x1b[1m".data ++ ("cannot read ".data ++ path.data) ++ "\x1b[0m".data) = true
  simpa [List.append_assoc] using h

/-- C6: when the resolved YAML config file for the requested collection does
not exist, the program terminates immediately via `sys.exit` with the styled
`cannot read <path>` message, whose text contains the resolved file path, and
no report lines are produced; no retry and no default collection is
attempted. -/
theorem missing_config_exits (fs : String → Option Cfg) (net : Net)
    (findall : String → String → List String)
    (app_dir action collection : String) (path_override limit : Option String)
    (h : fs (find_config path_override app_dir collection) = none) :
    cli fs net findall app_dir action collection path_override limit
      = CliResult.exited (click_style_red_bold
          ("cannot read " ++ find_config path_override app_dir collection))
    ∧ py_in (find_config path_override app_dir collection)
        (click_style_red_bold
          ("cannot read " ++ find_config path_override app_dir collection)) = true := by
  constructor
  · simp [cli, read_config, h]
  · exact py_in_click_msg (find_config path_override app_dir collection)

/-- Witness for C6: collection `ghost` over an empty filesystem. -/
theorem missing_config_exits_witness :
    (cli (fun _ => none) scenario_net vddd_engine "/home/user/.config/toleo"
        "compare" "ghost" none none
      = CliResult.exited (click_style_red_bold
          ("cannot read " ++ find_config none "/home/user/.config/toleo" "ghost"))
    ∧ py_in (find_config none "/home/user/.config/toleo" "ghost")
        (click_style_red_bold
          ("cannot read " ++ find_config none "/home/user/.config/toleo" "ghost")) = true)
    ∧ find_config none "/home/user/.config/toleo" "ghost"
      = "/home/user/.config/toleo/ghost.yaml" :=
  ⟨missing_config_exits (fun _ => none) scenario_net vddd_engine
      "/home/user/.config/toleo" "compare" "ghost" none none rfl, rfl⟩

/-- C7: a supplied name filter narrows the loaded collection, once at load
time and in source order, to exactly the packages whose name contains the
substring; an empty result is an empty report, not an error; with filter
`foo` over `foobar`, `foo-lib`, `baz`, exactly `foobar` and `foo-lib`
remain. -/
theorem limit_narrows (fs : String → Option Cfg) (cfg_path l : String)
    (full : Cfg) (hfs : fs cfg_path = some full) :
    (read_config fs cfg_path (some l)
        = Except.ok (full.filter (fun kv => py_in l kv.1))
      ∧ ∀ kv, kv ∈ full.filter (fun kv => py_in l kv.1)
          ↔ kv ∈ full ∧ py_in l kv.1 = true)
    ∧ read_config (fun _ => some limit_demo_cfg) "dir/default.yaml" (some "foo")
      = Except.ok [("foobar", empty_pkg), ("foo-lib", empty_pkg)]
    ∧ read_config (fun _ => some limit_demo_cfg) "dir/default.yaml" (some "qqq")
      = Except.ok []
    ∧ action_upstream scenario_net vddd_engine [] = Except.ok [line] := by
  refine ⟨⟨?_, ?_⟩, rfl, rfl, rfl⟩
  · simp [read_config, hfs]
  · intro kv
    simp [List.mem_filter]

/-- Witness for C7 at the `--limit foo` scenario. -/
theorem limit_narrows_witness :
    (read_config (fun _ => some limit_demo_cfg) "dir/default.yaml" (some "foo")
        = Except.ok (limit_demo_cfg.filter (fun kv => py_in "foo" kv.1))
      ∧ ∀ kv, kv ∈ limit_demo_cfg.filter (fun kv => py_in "foo" kv.1)
          ↔ kv ∈ limit_demo_cfg ∧ py_in "foo" kv.1 = true)
    ∧ read_config (fun _ => some limit_demo_cfg) "dir/default.yaml" (some "foo")
      = Except.ok [("foobar", empty_pkg), ("foo-lib", empty_pkg)]
    ∧ read_config (fun _ => some limit_demo_cfg) "dir/default.yaml" (some "qqq")
      = Except.ok []
    ∧ action_upstream scenario_net vddd_engine [] = Except.ok [line] :=
  limit_narrows (fun _ => some limit_demo_cfg) "dir/default.yaml" "foo"
    limit_demo_cfg rfl

/-- C8: for every package with a `repo` sub-record, the repo resolver issues
exactly one RPC query, `type=info` and `arg` equal to the package name,
against the fixed AUR endpoint, and returns the `Version` field of the
`results` object of the JSON response, with no caching and no local handling
of a missing `Version` key. -/
theorem repo_version_rpc (net : Net) (cfg : Cfg) (pkg_name : String) (p : Pkg)
    (r : RepoCfg) (result : List (String × Jval))
    (h1 : cfg_get cfg pkg_name = some p) (h2 : p.repo = some r)
    (h3 : dict_get (net.rpc aur_rpc_url "info" pkg_name) "results"
      = some (Jval.jdict result)) :
    repo_version net cfg pkg_name
      = ([NetEvent.rpc aur_rpc_url "info" pkg_name],
         Except.ok (dict_get result "Version")) := by
  simp [repo_version, h1, h2, aur_api, h3]

/-- Witness for C8 at the end-to-end scenario. -/
theorem repo_version_rpc_witness :
    repo_version scenario_net scenario_cfg "widget"
      = ([NetEvent.rpc aur_rpc_url "info" "widget"],
         Except.ok (dict_get [("Version", Jval.jstr "1.4.0-1")] "Version")) :=
  repo_version_rpc scenario_net scenario_cfg "widget" widget_pkg
    { url := none, parser_name := none } [("Version", Jval.jstr "1.4.0-1")]
    rfl rfl rfl

/-- C10: for every action argument outside `upstream`, `repo` and `compare`,
the CLI still resolves and validates the config file — exiting with the
`cannot read` message when it is missing — and otherwise produces no report
output and returns normally. -/
theorem unknown_action_silent (fs : String → Option Cfg) (net : Net)
    (findall : String → String → List String)
    (app_dir action collection : String) (path_override limit : Option String)
    (h1 : action ≠ "upstream") (h2 : action ≠ "repo") (h3 : action ≠ "compare") :
    (∀ full, fs (find_config path_override app_dir collection) = some full →
      cli fs net findall app_dir action collection path_override limit
        = CliResult.finished [])
    ∧ (fs (find_config path_override app_dir collection) = none →
      cli fs net findall app_dir action collection path_override limit
        = CliResult.exited (click_style_red_bold
            ("cannot read " ++ find_config path_override app_dir collection))) := by
  constructor
  · intro full hf
    cases hl : limit with
    | none => simp [cli, read_config, hf, hl, h1, h2, h3]
    | some l => simp [cli, read_config, hf, hl, h1, h2, h3]
  · intro hf
    simp [cli, read_config, hf]

/-- Witness for C10 with the unknown action `bogus`. -/
theorem unknown_action_silent_witness :
    cli (fun _ => some scenario_cfg) scenario_net vddd_engine
        "/home/user/.config/toleo" "bogus" "default" none none
      = CliResult.finished [] :=
  (unknown_action_silent (fun _ => some scenario_cfg) scenario_net vddd_engine
      "/home/user/.config/toleo" "bogus" "default" none none
      (by decide) (by decide) (by decide)).1 scenario_cfg rfl

end Toleo
